import Mathlib

/-!
# Shallow embedding of the IndoBERT comment-moderation engine

This file embeds the moderation core of the repository — `AutoMonitor` in
`src/app/streamlit_monitor.py` and `SpamDetector.predict` in
`src/services/spam_detector.py` — as executable Lean definitions, and proves
properties of the embedding.

Modelling conventions:
* Python floats (classifier confidence, thresholds) are modelled by `ℚ`;
  the properties proved concern only order comparisons, on which IEEE
  comparison of non-NaN values agrees with the rational order.
* Timestamps are abstract `Nat` tick counts; the `strftime` timestamp string
  carried by Python log entries is omitted (no property inspects it), as is
  the `detected_time` field of pending items.
* The external collaborators (`facebook_api`, `spam_detector`, Streamlit's
  `st.session_state`) are an explicit environment `Env` of oracles.
* A Python exception propagating out of a function is modelled by
  `Except MonitorState MonitorState`: `.error st` means "raised, with the
  in-place mutations performed so far recorded in `st`"; `.ok st` is a
  normal return.  `_process_comment` (lines 316–414) catches any exception
  and re-raises it, so its raise is visible to its caller; the one
  raise-capable statement it contains after classification that is *not*
  inside an inner `try` is the `st.session_state` read on line 375, modelled
  by the oracle `Env.sessionRaises`.  Callback dispatch
  (`trigger_callback`) swallows exceptions and mutates no engine state, so
  it is omitted.  The session-state mirrors of logs/pending/statistics are
  best-effort copies and are modelled only where a claim cites them
  (`sync_pending_spam_to_session_state`).
* `processed_comments` is a Python `set`; membership is what the engine
  queries, and insertion order is tracked here by keeping the set as a
  duplicate-free list in insertion order.  CPython's *iteration* order over
  a set of strings (`list(self.processed_comments)`) is unspecified (string
  hashing is salted per process), so the eviction code's enumeration of the
  set is an explicit parameter `enum`, instantiable with any enumeration of
  the elements.
* The field `classified` of `MonitorState` is instrumentation, not a Python
  variable: it records, in order, the comment id of every call the monitor
  makes to `spam_detector.predict` (line 339), so that "no comment is
  classified twice" is statable.  No definition reads it.
-/

/-- Classifier output: the dict returned by `SpamDetector.predict`
(`src/services/spam_detector.py` lines 82–137).  The optional
`predicted_class` key of the success dict is omitted (it duplicates
`is_spam`/`label`). -/
structure Verdict where
  is_spam : Bool
  confidence : ℚ
  label : String
  error : Option String
  deriving Repr, DecidableEq

/-- A comment as consumed by the monitor: `comment['id']`,
`comment.get('message','')`, `comment.get('from',{}).get('name','Unknown')`. -/
structure Comment where
  id : String
  message : String
  author : String
  deriving Repr, DecidableEq

/-- One entry of the monitor's activity log, the dict built by
`AutoMonitor._add_log_entry` (lines 146–154); the `strftime` timestamp
string is omitted. -/
structure LogEntry where
  action : String
  comment_id : String
  author : String
  message : String
  post_id : String
  reason : String
  deriving Repr, DecidableEq

/-- One pending-review item, the dict built at lines 401–408
(`detected_time` omitted). -/
structure PendingItem where
  comment_id : String
  message : String
  author : String
  post_id : String
  prediction : Verdict
  deriving Repr, DecidableEq

/-- The mutable state of one `AutoMonitor` instance (lines 28–49).
`spam_detected` is a lazily-created key of the Python statistics dict
(lines 348–350); a missing key behaves exactly like the value `0`, so it is
a plain `Nat` here.  `classified` is instrumentation (see module docstring). -/
structure MonitorState where
  is_running : Bool
  auto_delete_enabled : Bool
  confidence_threshold : ℚ
  pending_spam : List PendingItem
  comments_processed : Nat
  spam_detected : Nat
  spam_removed : Nat
  errors : Nat
  start_time : Option Nat
  last_check : Option Nat
  processed_comments : List String
  internal_logs : List LogEntry
  classified : List String
  deriving Repr, DecidableEq

/-- The external collaborators of one poll cycle.
* `predict`: `self.spam_detector.predict` (total: see `SpamDetector.predict`).
* `deleteOk`: the boolean outcome of `self.facebook_api.delete_comment`;
  an exception raised by it is caught at lines 468–470 and folded into
  `false`.
* `sessionAutoDelete`: `st.session_state.auto_delete_enabled` when that key
  exists (lines 251–254 and 367–371), `none` otherwise.
* `sessionRaises`: whether the unguarded `st.session_state` read on
  line 375 raises while this comment is being processed.
* `listPosts`: `self.facebook_api.get_recent_posts(limit=5)` together with
  `get_post_comments(post_id, limit=20)` per post; `.error ()` models the
  posts call raising (lines 286, 312–314).
* `enum`: the iteration order CPython yields for `list(set_of_ids)` —
  unspecified by the language; any enumeration of the elements. -/
structure Env where
  predict : String → Verdict
  deleteOk : String → Bool
  sessionAutoDelete : Option Bool
  sessionRaises : String → Bool
  listPosts : Except Unit (List (String × List Comment))
  enum : List String → List String

/-- Python's blank test `not s` / `s.strip() == ""` (used at
`streamlit_monitor.py` line 329 and `spam_detector.py` line 82): a string
strips to empty exactly when every character is whitespace. -/
def is_blank (s : String) : Bool := s.data.all Char.isWhitespace

/-- Python's character slice `s[:100]` (`streamlit_monitor.py` line 151):
the first 100 characters. -/
def take_chars (n : Nat) (s : String) : String := String.mk (s.data.take n)

/-- `SpamDetector.predict` (`src/services/spam_detector.py` lines 71–137).
The tokenizer/model/softmax/argmax pipeline of lines 91–121 is the oracle
`model_run text`, returning the predicted class index and the max softmax
probability, or `.error` when any of those lines raises — the surrounding
`try`/`except` (lines 81, 130–137) converts the latter into the
`label = "error"` dict.  Lines 82–88 return the empty-text dict before the
model is touched.  The Lean function is total: every raise-capable part of
the Python body sits inside the `try`. -/
def SpamDetector.predict (model_run : String → Except String (Nat × ℚ))
    (text : String) : Verdict :=
  if text = "" ∨ is_blank text then
    { is_spam := false, confidence := 0, label := "normal", error := some "Empty text" }
  else
    match model_run text with
    | .error e => { is_spam := false, confidence := 0, label := "error", error := some e }
    | .ok (predicted_class, conf) =>
      { is_spam := predicted_class == 1, confidence := conf,
        label := if predicted_class == 1 then "spam" else "normal", error := none }

namespace AutoMonitor

/-- The log dict of `_add_log_entry` lines 146–154: `message[:100]`. -/
def mk_log_entry (action comment_id author message post_id reason : String) : LogEntry :=
  { action := action, comment_id := comment_id, author := author,
    message := take_chars 100 message, post_id := post_id, reason := reason }

/-- `_add_log_entry` lines 157–161: append, then keep only the last 100
(`self.internal_logs = self.internal_logs[-100:]` when the length
exceeds 100). -/
def add_log_entry (logs : List LogEntry) (e : LogEntry) : List LogEntry :=
  let l := logs ++ [e]
  if l.length > 100 then l.drop (l.length - 100) else l

/-- The spam decision of line 342:
`prediction['is_spam'] and prediction['confidence'] > self.confidence_threshold`. -/
def is_spam_decision (p : Verdict) (threshold : ℚ) : Bool :=
  p.is_spam && decide (threshold < p.confidence)

/-- `_delete_spam_comment` lines 440–470: on a `true` outcome of
`facebook_api.delete_comment` a `DELETED` log entry is appended; on `false`
(or a raise, caught at 468–470) nothing changes. -/
def delete_spam_comment (env : Env) (st : MonitorState)
    (comment_id message author post_id reason : String) : Bool × MonitorState :=
  if env.deleteOk comment_id then
    (true, { st with
             internal_logs := add_log_entry st.internal_logs
               (mk_log_entry "DELETED" comment_id author message post_id reason) })
  else (false, st)

/-- `_add_to_pending_spam` lines 416–438: an unconditional
`self.pending_spam.append(spam_data)` — there is no check whether an item
with the same comment id is already present. -/
def add_to_pending_spam (st : MonitorState) (item : PendingItem) : MonitorState :=
  { st with pending_spam := st.pending_spam ++ [item] }

/-- `sync_pending_spam_to_session_state` lines 110–135: the set of ids
already in the session list is computed *once* (line 122), then every
internal item whose id is not in that pre-computed set is appended. -/
def sync_pending_spam_to_session_state (session internal : List PendingItem) :
    List PendingItem :=
  let session_ids := session.map (·.comment_id)
  session ++ internal.filter (fun it => ! session_ids.contains it.comment_id)

/-- `_process_comment` lines 316–414.  Order of effects follows the source:
blank-message early return (329–330); `comments_processed` increment (333);
`NEW_COMMENT` log (336); classification (339) — recorded in the
instrumentation trace; the line-342 decision; in the spam branch the
`spam_detected` increment (348–350), the `SPAM_DETECTED` log (353–354), the
live re-read of `auto_delete_enabled` from session state (365–373, also
written back to the config field), the raise-capable line 375, and then
either the delete attempt (377–380) or the `PENDING_SPAM` log plus pending
append (397–408).  An exception is re-raised at line 414 (`.error`). -/
def process_comment (env : Env) (st : MonitorState) (c : Comment) (post_id : String) :
    Except MonitorState MonitorState :=
  if is_blank c.message then .ok st
  else
    let st1 := { st with comments_processed := st.comments_processed + 1 }
    let st2 := { st1 with
                 internal_logs := add_log_entry st1.internal_logs
                   (mk_log_entry "NEW_COMMENT" c.id c.author c.message post_id
                     "New comment detected") }
    let p := env.predict c.message
    let st3 := { st2 with classified := st2.classified ++ [c.id] }
    if is_spam_decision p st3.confidence_threshold then
      let st4 := { st3 with spam_detected := st3.spam_detected + 1 }
      let st5 := { st4 with
                   internal_logs := add_log_entry st4.internal_logs
                     (mk_log_entry "SPAM_DETECTED" c.id c.author c.message post_id
                       ("Spam detected (confidence: " ++ toString p.confidence ++ ")")) }
      let current_auto_delete := env.sessionAutoDelete.getD st5.auto_delete_enabled
      let st6 := { st5 with auto_delete_enabled := current_auto_delete }
      if env.sessionRaises c.id then .error st6
      else if current_auto_delete then
        match delete_spam_comment env st6 c.id c.message c.author post_id "Auto deletion" with
        | (true, st7) => .ok { st7 with spam_removed := st7.spam_removed + 1 }
        | (false, st7) => .ok st7
      else
        let st7 := { st6 with
                     internal_logs := add_log_entry st6.internal_logs
                       (mk_log_entry "PENDING_SPAM" c.id c.author c.message post_id
                         "Spam added to pending review (auto-delete disabled)") }
        .ok (add_to_pending_spam st7
          { comment_id := c.id, message := c.message, author := c.author,
            post_id := post_id, prediction := p })
    else .ok st3

/-- The size cap of lines 305–310: after each insertion, when the set holds
more than 1000 ids, `old_comments = list(self.processed_comments)[:200]` is
discarded element-by-element.  `enum` is the set's iteration order (see
`Env.enum`). -/
def dedup_evict (enum : List String → List String) (processed : List String) :
    List String :=
  if processed.length > 1000 then
    let old := (enum processed).take 200
    processed.filter (fun i => ! old.contains i)
  else processed

/-- The inner comment loop of `_check_for_new_comments` lines 294–310: skip
ids already in `processed_comments` (298–299), otherwise process the comment
(302) and only *then* add its id (303) and apply the size cap (305–310).
A raise from `_process_comment` propagates before the add happens. -/
def process_comments_loop (env : Env) (st : MonitorState) (post_id : String) :
    List Comment → Except MonitorState MonitorState
  | [] => .ok st
  | c :: rest =>
    if st.processed_comments.contains c.id then
      process_comments_loop env st post_id rest
    else
      match process_comment env st c post_id with
      | .error st' => .error st'
      | .ok st' =>
        process_comments_loop env
          { st' with processed_comments :=
              dedup_evict env.enum (st'.processed_comments ++ [c.id]) }
          post_id rest

/-- The outer post loop of `_check_for_new_comments` lines 288–292. -/
def posts_loop (env : Env) (st : MonitorState) :
    List (String × List Comment) → Except MonitorState MonitorState
  | [] => .ok st
  | (post_id, cs) :: rest =>
    match process_comments_loop env st post_id cs with
    | .error st' => .error st'
    | .ok st' => posts_loop env st' rest

/-- `_check_for_new_comments` lines 282–314: a raise from
`get_recent_posts` (or anything below) is logged to the Python logger and
re-raised (312–314) — nothing is appended to `internal_logs`. -/
def check_for_new_comments (env : Env) (st : MonitorState) :
    Except MonitorState MonitorState :=
  match env.listPosts with
  | .error _ => .error st
  | .ok posts => posts_loop env st posts

/-- One iteration of `_monitor_loop` lines 247–278: sync
`auto_delete_enabled` from session state (251–256, exceptions swallowed),
run `_check_for_new_comments`; on normal return set `last_check = now`
(259); on a raise increment `errors` (270) — `last_check` is then not
updated and no log entry is appended.  `is_running` is never touched, so
the `while self.is_running` loop proceeds to the next cycle either way. -/
def monitor_cycle (env : Env) (now : Nat) (st : MonitorState) : MonitorState :=
  let st0 := match env.sessionAutoDelete with
             | some b => { st with auto_delete_enabled := b }
             | none => st
  match check_for_new_comments env st0 with
  | .ok st' => { st' with last_check := some now }
  | .error st' => { st' with errors := st'.errors + 1 }

/-- A run of successive poll cycles, each with its own environment and
clock tick. -/
def run_cycles (cycles : List (Env × Nat)) (st : MonitorState) : MonitorState :=
  cycles.foldl (fun s en => monitor_cycle en.1 en.2 s) st

/-- `start` lines 214–228.  The returned `Bool` is whether a new monitor
thread was spawned (line 225–226).  When already running the method returns
at line 218 after a logger warning, touching nothing. -/
def start (now : Nat) (st : MonitorState) : MonitorState × Bool :=
  if st.is_running then (st, false)
  else ({ st with is_running := true, start_time := some now,
                  processed_comments := [] }, true)

/-- `stop` lines 230–241: returns at line 234 when not running; otherwise
clears `is_running` (the thread join mutates no state). -/
def stop (st : MonitorState) : MonitorState :=
  if st.is_running then { st with is_running := false } else st

/-- `reset_statistics` lines 485–494: the statistics dict is replaced by
zeroed counters (the lazily-created `spam_detected` key disappears, i.e.
reads as 0), `start_time` is refreshed only while running, and
`processed_comments` is cleared.  `pending_spam`, `internal_logs`,
`is_running` and the config fields are untouched. -/
def reset_statistics (now : Nat) (st : MonitorState) : MonitorState :=
  { st with comments_processed := 0, spam_detected := 0, spam_removed := 0,
            errors := 0,
            start_time := if st.is_running then some now else none,
            processed_comments := [] }

end AutoMonitor

/-- The monitor state after `_process_comment` finishes, whether by normal
return (`.ok`) or by the re-raise at line 414 (`.error`) — Python mutates
the object in place, so the mutations made before a raise persist. -/
def result_state : Except MonitorState MonitorState → MonitorState
  | .ok st => st
  | .error st => st

/-! ## Concrete fixtures for witnesses and counterexamples -/

/-- A confident spam verdict (the spec's Scenario A: confidence 0.95). -/
def demoVerdictSpam : Verdict :=
  { is_spam := true, confidence := mkRat 95 100, label := "spam", error := none }

/-- The Scenario-A comment. -/
def demoComment : Comment :=
  { id := "c1", message := "ayo depo sekarang dijamin maxwin", author := "A" }

/-- A running monitor with threshold 0.5 and empty collections. -/
def demoState : MonitorState :=
  { is_running := true, auto_delete_enabled := true,
    confidence_threshold := mkRat 1 2,
    pending_spam := [], comments_processed := 0, spam_detected := 0,
    spam_removed := 0, errors := 0, start_time := some 0, last_check := none,
    processed_comments := [], internal_logs := [], classified := [] }

/-- The same monitor, stopped. -/
def demoStoppedState : MonitorState := { demoState with is_running := false }

/-- A pending-review item for `demoComment`. -/
def demoItem : PendingItem :=
  { comment_id := "c1", message := demoComment.message, author := "A",
    post_id := "p1", prediction := demoVerdictSpam }

/-- A log entry used to exercise the activity-log bound. -/
def demoLogEntry : LogEntry :=
  { action := "NEW_COMMENT", comment_id := "c1", author := "A", message := "m",
    post_id := "p1", reason := "r" }

/-- Environment in which the unguarded session-state read on line 375 raises
while comment `c1` is processed. -/
def raiseEnv : Env :=
  { predict := fun _ => demoVerdictSpam, deleteOk := fun _ => true,
    sessionAutoDelete := none, sessionRaises := fun i => i == "c1",
    listPosts := .ok [("p1", [demoComment])], enum := fun l => l }

/-- Environment in which `facebook_api.delete_comment` reports failure. -/
def failDeleteEnv : Env :=
  { predict := fun _ => demoVerdictSpam, deleteOk := fun _ => false,
    sessionAutoDelete := none, sessionRaises := fun _ => false,
    listPosts := .ok [("p1", [demoComment])], enum := fun l => l }

/-- Environment in which `get_recent_posts` raises. -/
def failListEnv : Env :=
  { predict := fun _ => demoVerdictSpam, deleteOk := fun _ => true,
    sessionAutoDelete := none, sessionRaises := fun _ => false,
    listPosts := .error (), enum := fun l => l }

/-- A fully healthy environment delivering `demoComment` once. -/
def okEnv : Env :=
  { predict := fun _ => demoVerdictSpam, deleteOk := fun _ => true,
    sessionAutoDelete := none, sessionRaises := fun _ => false,
    listPosts := .ok [("p1", [demoComment])], enum := fun l => l }

/-- The dedup/classification invariant: the dedup set holds each id at most
once, no id has been handed to the classifier twice, and every classified
id has been recorded in the dedup set. -/
def DedupInv (st : MonitorState) : Prop :=
  st.processed_comments.Nodup ∧ st.classified.Nodup ∧
  ∀ i ∈ st.classified, i ∈ st.processed_comments

/-- The number of comments a cycle's environment can deliver — an upper
bound on how much the dedup set can grow in that cycle. -/
def cycle_comment_budget (env : Env) : Nat :=
  match env.listPosts with
  | .error _ => 0
  | .ok posts => (posts.map (fun p => p.2.length)).sum

/-- 1001 pairwise-distinct comment ids in insertion order (the id inserted
`n`-th is the string of `n` copies of `a`). -/
def c6_ids : List String :=
  (List.range 1001).map (fun n => String.mk (List.replicate n 'a'))

/-! ## Theorems -/

/-- C1: for every comment processed while the engine is running, the spam
decision of `_process_comment` (line 342) equals
`verdict.is_spam AND verdict.confidence > confidence_threshold` with a
strict greater-than: a verdict whose confidence exactly equals the
threshold is never treated as spam, one with `is_spam` true and confidence
strictly above it always is, and for a non-blank comment `spam_detected`
advances exactly when that decision holds. -/
theorem spam_decision_strict_threshold (env : Env) (st : MonitorState)
    (c : Comment) (post_id : String) (p : Verdict) (t : ℚ)
    (hmsg : is_blank c.message = false) :
    (AutoMonitor.is_spam_decision p t = true ↔ (p.is_spam = true ∧ t < p.confidence)) ∧
    (p.confidence = t → AutoMonitor.is_spam_decision p t = false) ∧
    (p.is_spam = true → t < p.confidence → AutoMonitor.is_spam_decision p t = true) ∧
    (result_state (AutoMonitor.process_comment env st c post_id)).spam_detected
      = st.spam_detected +
          (if AutoMonitor.is_spam_decision (env.predict c.message) st.confidence_threshold
           then 1 else 0) := by
  refine ⟨?_, ?_, ?_, ?_⟩
  · simp [AutoMonitor.is_spam_decision]
  · intro h
    simp [AutoMonitor.is_spam_decision, h]
  · intro h1 h2
    simp [AutoMonitor.is_spam_decision, h1, h2]
  · simp only [AutoMonitor.process_comment, hmsg, Bool.false_eq_true, if_false]
    by_cases hd : AutoMonitor.is_spam_decision (env.predict c.message) st.confidence_threshold = true
    · simp only [hd, if_true]
      by_cases hr : env.sessionRaises c.id = true
      · simp [hr, result_state]
      · simp only [Bool.not_eq_true] at hr
        simp only [hr, Bool.false_eq_true, if_false]
        by_cases ha : (env.sessionAutoDelete.getD st.auto_delete_enabled) = true
        · simp only [ha, if_true, AutoMonitor.delete_spam_comment]
          by_cases hk : env.deleteOk c.id = true
          · simp [hk, result_state]
          · simp only [Bool.not_eq_true] at hk
            simp [hk, result_state]
        · simp only [Bool.not_eq_true] at ha
          simp [ha, result_state, AutoMonitor.add_to_pending_spam]
    · simp only [Bool.not_eq_true] at hd
      simp [hd, result_state]

/-- Witness for C1 at the Scenario-A comment: confidence 0.95 against
threshold 0.5, `is_spam` true, so `spam_detected` moves from 0 to 1. -/
theorem spam_decision_strict_threshold_witness :
    (result_state (AutoMonitor.process_comment okEnv demoState demoComment "p1")).spam_detected
      = demoState.spam_detected +
          (if AutoMonitor.is_spam_decision (okEnv.predict demoComment.message)
                demoState.confidence_threshold
           then 1 else 0) :=
  (spam_decision_strict_threshold okEnv demoState demoComment "p1" demoVerdictSpam
    (mkRat 1 2) (by decide)).2.2.2

/-- C8: `start()` on a RUNNING engine is a no-op — state and statistics
unchanged and no second poll-loop thread spawned; `stop()` on a STOPPED
engine is a no-op; `start()` from STOPPED clears the dedup set, sets
`start_time` to the current time, spawns the poll loop (the `true` flag)
and transitions to RUNNING. -/
theorem start_stop_transitions (st : MonitorState) (now : Nat) :
    (st.is_running = true → AutoMonitor.start now st = (st, false)) ∧
    (st.is_running = false → AutoMonitor.stop st = st) ∧
    (st.is_running = false →
      AutoMonitor.start now st =
        ({ st with is_running := true, start_time := some now,
                   processed_comments := [] }, true)) := by
  refine ⟨?_, ?_, ?_⟩
  · intro h
    simp [AutoMonitor.start, h]
  · intro h
    simp [AutoMonitor.stop, h]
  · intro h
    simp [AutoMonitor.start, h]

/-- Witness for C8: a second `start` on the running demo monitor changes
nothing and spawns nothing; `stop` on the stopped one changes nothing;
`start` on the stopped one clears the dedup set, stamps the clock, spawns
the loop and sets RUNNING. -/
theorem start_stop_transitions_witness :
    AutoMonitor.start 7 demoState = (demoState, false) ∧
    AutoMonitor.stop demoStoppedState = demoStoppedState ∧
    AutoMonitor.start 7 demoStoppedState =
      ({ demoStoppedState with is_running := true, start_time := some 7,
                               processed_comments := [] }, true) :=
  ⟨(start_stop_transitions demoState 7).1 rfl,
   (start_stop_transitions demoStoppedState 7).2.1 rfl,
   (start_stop_transitions demoStoppedState 7).2.2 rfl⟩

/-- C9: `SpamDetector.predict` never raises (it is a total function here
because every raise-capable statement of the Python body is inside its
`try`); on an internal failure of the model pipeline it returns
`is_spam = false`, `confidence = 0`, `label = "error"`, and on empty or
whitespace-only input it returns `is_spam = false`, `confidence = 0`
instead of raising. -/
theorem predict_never_raises_fail_open
    (model_run : String → Except String (Nat × ℚ)) (text : String) :
    (∀ e, is_blank text = false → model_run text = .error e →
       SpamDetector.predict model_run text =
         { is_spam := false, confidence := 0, label := "error", error := some e }) ∧
    (is_blank text = true →
       (SpamDetector.predict model_run text).is_spam = false ∧
       (SpamDetector.predict model_run text).confidence = 0) := by
  constructor
  · intro e hb hm
    have hne : ¬ (text = "" ∨ is_blank text = true) := by
      rintro (rfl | h)
      · simp [is_blank] at hb
      · rw [h] at hb
        exact Bool.false_ne_true hb.symm
    simp only [SpamDetector.predict]
    rw [if_neg hne, hm]
  · intro h
    simp only [SpamDetector.predict]
    rw [if_pos (Or.inr h)]
    exact ⟨rfl, rfl⟩

/-- Witness for C9: a model pipeline that raises yields the fail-open
error verdict on a non-blank text, and whitespace-only input yields a
non-spam zero-confidence verdict. -/
theorem predict_never_raises_fail_open_witness :
    SpamDetector.predict (fun _ => .error "CUDA error") "ayo depo" =
      { is_spam := false, confidence := 0, label := "error",
        error := some "CUDA error" } ∧
    (SpamDetector.predict (fun _ => .ok (1, 1)) "  ").is_spam = false :=
  ⟨(predict_never_raises_fail_open (fun _ => .error "CUDA error") "ayo depo").1
      "CUDA error" (by decide) rfl,
   ((predict_never_raises_fail_open (fun _ => .ok (1, 1)) "  ").2 (by decide)).1⟩

/-- C3 counterexample: `_add_to_pending_spam` performs an unconditional
`append`; adding the same comment id twice yields two entries (the claim
says exactly one), both carrying id `"c1"`. -/
theorem pending_duplicate_cex :
    (AutoMonitor.add_to_pending_spam
        (AutoMonitor.add_to_pending_spam demoState demoItem) demoItem).pending_spam
      = [demoItem, demoItem] ∧
    demoItem.comment_id = "c1" := by
  constructor
  · rfl
  · rfl

/-- C3 amended: adding an item whose comment id is already present appends
a second entry — the internal pending store never deduplicates, so the
count of entries carrying that id grows by one at every add; and the
session-state sync filters only against the ids already in the session
list when the sync starts, so duplicate internal entries are all copied. -/
theorem pending_add_appends_duplicates (st : MonitorState) (item : PendingItem) :
    (AutoMonitor.add_to_pending_spam (AutoMonitor.add_to_pending_spam st item) item).pending_spam
      = st.pending_spam ++ [item, item] ∧
    ((AutoMonitor.add_to_pending_spam st item).pending_spam.filter
        (fun it => it.comment_id == item.comment_id)).length
      = (st.pending_spam.filter (fun it => it.comment_id == item.comment_id)).length + 1 ∧
    AutoMonitor.sync_pending_spam_to_session_state [] [item, item] = [item, item] := by
  refine ⟨?_, ?_, ?_⟩
  · simp [AutoMonitor.add_to_pending_spam]
  · simp [AutoMonitor.add_to_pending_spam]
  · simp [AutoMonitor.sync_pending_spam_to_session_state]

/-- C4 counterexample: for the Scenario-A comment with auto-delete enabled
and `delete_comment` reporting failure, the comment is decided spam, yet
after processing the `errors` counter is still 0 (the claim says it is
incremented); pending stays empty and `spam_removed` stays 0. -/
theorem delete_failure_errors_unchanged_cex :
    AutoMonitor.is_spam_decision (failDeleteEnv.predict demoComment.message)
        demoState.confidence_threshold = true ∧
    demoState.auto_delete_enabled = true ∧
    failDeleteEnv.deleteOk demoComment.id = false ∧
    demoState.errors = 0 ∧
    (result_state (AutoMonitor.process_comment failDeleteEnv demoState demoComment "p1")).errors = 0 ∧
    (result_state (AutoMonitor.process_comment failDeleteEnv demoState demoComment "p1")).pending_spam = [] ∧
    (result_state (AutoMonitor.process_comment failDeleteEnv demoState demoComment "p1")).spam_removed = 0 := by
  decide

/-- C4 amended: when a comment is decided spam, auto-delete is enabled and
the delete operation returns failure, `_process_comment` returns normally
leaving the `errors` counter *unchanged* (the failure is only written to
the Python logger), does not add the comment to the pending queue and does
not increment `spam_removed` — the failure is terminal for that comment in
that cycle. -/
theorem delete_failure_silent (env : Env) (st : MonitorState) (c : Comment)
    (post_id : String)
    (hmsg : is_blank c.message = false)
    (hspam : AutoMonitor.is_spam_decision (env.predict c.message)
        st.confidence_threshold = true)
    (hdel : env.sessionAutoDelete.getD st.auto_delete_enabled = true)
    (hraise : env.sessionRaises c.id = false)
    (hfail : env.deleteOk c.id = false) :
    ∃ st', AutoMonitor.process_comment env st c post_id = .ok st' ∧
      st'.errors = st.errors ∧
      st'.pending_spam = st.pending_spam ∧
      st'.spam_removed = st.spam_removed := by
  simp only [AutoMonitor.process_comment, hmsg, Bool.false_eq_true, if_false,
    hspam, if_true, hraise, hdel, AutoMonitor.delete_spam_comment, hfail]
  exact ⟨_, rfl, rfl, rfl, rfl⟩

/-- Witness for C4 amended, at the Scenario-A comment with a failing
delete: processing succeeds and leaves errors, pending and spam_removed
untouched. -/
theorem delete_failure_silent_witness :
    ∃ st', AutoMonitor.process_comment failDeleteEnv demoState demoComment "p1" = .ok st' ∧
      st'.errors = demoState.errors ∧
      st'.pending_spam = demoState.pending_spam ∧
      st'.spam_removed = demoState.spam_removed :=
  delete_failure_silent failDeleteEnv demoState demoComment "p1"
    (by decide) (by decide) (by decide) (by decide) (by decide)

/-- C7 counterexample: after a poll cycle in which `get_recent_posts`
raises, the errors counter is incremented and the engine stays running,
but the activity log is left exactly as it was — no ERROR-taxonomy entry
is ever appended (`_monitor_loop` only writes to the Python logger), while
the claim requires one. -/
theorem list_posts_failure_no_log_entry_cex :
    demoState.internal_logs = [] ∧
    (AutoMonitor.monitor_cycle failListEnv 1 demoState).errors = 1 ∧
    (AutoMonitor.monitor_cycle failListEnv 1 demoState).internal_logs = [] ∧
    (AutoMonitor.monitor_cycle failListEnv 1 demoState).is_running = true ∧
    (AutoMonitor.monitor_cycle failListEnv 2
        (AutoMonitor.monitor_cycle failListEnv 1 demoState)).errors = 2 ∧
    (AutoMonitor.monitor_cycle failListEnv 2
        (AutoMonitor.monitor_cycle failListEnv 1 demoState)).is_running = true := by
  decide

/-- C7 amended: when `listPosts` fails during a poll cycle the engine
increments the errors counter once per failed cycle, appends *nothing* to
the activity log (the failure is only written to the Python logger),
leaves `is_running` and `last_check` untouched — so it remains RUNNING and
proceeds to the next cycle — and after two consecutive failures the
counter has grown by exactly 2. -/
theorem list_posts_failure_counted (env env2 : Env) (now now2 : Nat)
    (st : MonitorState)
    (h : env.listPosts = .error ())
    (h2 : env2.listPosts = .error ()) :
    (AutoMonitor.monitor_cycle env now st).errors = st.errors + 1 ∧
    (AutoMonitor.monitor_cycle env now st).is_running = st.is_running ∧
    (AutoMonitor.monitor_cycle env now st).internal_logs = st.internal_logs ∧
    (AutoMonitor.monitor_cycle env now st).last_check = st.last_check ∧
    (AutoMonitor.monitor_cycle env2 now2 (AutoMonitor.monitor_cycle env now st)).errors
      = st.errors + 2 := by
  have step : ∀ (e : Env) (n : Nat) (s : MonitorState), e.listPosts = .error () →
      AutoMonitor.monitor_cycle e n s =
        { s with auto_delete_enabled := e.sessionAutoDelete.getD s.auto_delete_enabled,
                 errors := s.errors + 1 } := by
    intro e n s he
    simp only [AutoMonitor.monitor_cycle, AutoMonitor.check_for_new_comments, he]
    cases e.sessionAutoDelete <;> rfl
  rw [step env now st h, step env2 now2 _ h2]
  exact ⟨rfl, rfl, rfl, rfl, rfl⟩

/-- Witness for C7 amended: two consecutive failing cycles on the demo
state leave the log empty, keep the engine running and raise `errors`
from 0 to 2. -/
theorem list_posts_failure_counted_witness :
    (AutoMonitor.monitor_cycle failListEnv 1 demoState).errors = demoState.errors + 1 ∧
    (AutoMonitor.monitor_cycle failListEnv 1 demoState).is_running = demoState.is_running ∧
    (AutoMonitor.monitor_cycle failListEnv 1 demoState).internal_logs = demoState.internal_logs ∧
    (AutoMonitor.monitor_cycle failListEnv 1 demoState).last_check = demoState.last_check ∧
    (AutoMonitor.monitor_cycle failListEnv 2
        (AutoMonitor.monitor_cycle failListEnv 1 demoState)).errors = demoState.errors + 2 :=
  list_posts_failure_counted failListEnv failListEnv 1 2 demoState rfl rfl

/-- C2 counterexample: in an environment where the unguarded session-state
read of line 375 raises while `"c1"` is processed, the poll cycle
classifies `"c1"` (the classifier is invoked) but its id is *not* added to
the dedup set — the add on line 303 is skipped because the exception
propagates first — and the next cycle classifies the same id a second
time, so a comment id is classified twice within one engine lifetime with
no eviction involved. -/
theorem dedup_add_skipped_on_raise_cex :
    (AutoMonitor.monitor_cycle raiseEnv 1 demoState).classified = ["c1"] ∧
    (AutoMonitor.monitor_cycle raiseEnv 1 demoState).processed_comments = [] ∧
    (AutoMonitor.monitor_cycle raiseEnv 2
        (AutoMonitor.monitor_cycle raiseEnv 1 demoState)).classified = ["c1", "c1"] := by
  decide

/-- One log append in closed form: the result is the appended list with its
overflow (everything beyond the last 100) dropped from the front. -/
theorem add_log_entry_eq_drop (logs : List LogEntry) (e : LogEntry) :
    AutoMonitor.add_log_entry logs e = (logs ++ [e]).drop (logs.length + 1 - 100) := by
  unfold AutoMonitor.add_log_entry
  rcases Nat.lt_or_ge 100 (logs ++ [e]).length with h | h
  · rw [if_pos h]
    congr 1
    simp
  · rw [if_neg (by omega)]
    have h0 : logs.length + 1 - 100 = 0 := by
      simp only [List.length_append, List.length_singleton] at h
      omega
    rw [h0, List.drop_zero]

/-- A fold of log appends in closed form, for any starting log within the
capacity bound. -/
theorem foldl_add_log_entry (es : List LogEntry) :
    ∀ logs : List LogEntry, logs.length ≤ 100 →
      es.foldl AutoMonitor.add_log_entry logs
        = (logs ++ es).drop (logs.length + es.length - 100) := by
  induction es with
  | nil =>
    intro logs h
    have h0 : logs.length - 100 = 0 := by omega
    simp [h0]
  | cons e es ih =>
    intro logs h
    have hstep := add_log_entry_eq_drop logs e
    have hlen1 : (AutoMonitor.add_log_entry logs e).length ≤ 100 := by
      rw [hstep, List.length_drop, List.length_append, List.length_singleton]
      omega
    have hlen2 : (AutoMonitor.add_log_entry logs e).length
        = logs.length + 1 - (logs.length + 1 - 100) := by
      rw [hstep, List.length_drop, List.length_append, List.length_singleton]
    rw [List.foldl_cons, ih (AutoMonitor.add_log_entry logs e) hlen1, hlen2, hstep]
    have hle : logs.length + 1 - 100 ≤ (logs ++ [e]).length := by
      rw [List.length_append, List.length_singleton]
      omega
    rw [← List.drop_append_of_le_length hle, List.drop_drop]
    have harr : logs ++ e :: es = (logs ++ [e]) ++ es := by simp
    rw [harr]
    congr 1
    simp only [List.length_cons, List.length_append, List.length_singleton]
    omega

/-- C5: the activity log is a FIFO ring buffer of capacity 100 — a single
append keeps the length within 100 and drops only the oldest overflow, and
appending any sequence of entries to an empty log leaves exactly the most
recent 100 of them, in order; in particular 150 appends leave exactly the
last 100. -/
theorem activity_log_bounded :
    (∀ (logs : List LogEntry) (e : LogEntry), logs.length ≤ 100 →
        (AutoMonitor.add_log_entry logs e).length ≤ 100 ∧
        AutoMonitor.add_log_entry logs e = (logs ++ [e]).drop (logs.length + 1 - 100)) ∧
    (∀ es : List LogEntry,
        es.foldl AutoMonitor.add_log_entry [] = es.drop (es.length - 100)) ∧
    (∀ es : List LogEntry, es.length = 150 →
        es.foldl AutoMonitor.add_log_entry [] = es.drop 50 ∧
        (es.foldl AutoMonitor.add_log_entry []).length = 100) := by
  have base : ∀ es : List LogEntry,
      es.foldl AutoMonitor.add_log_entry [] = es.drop (es.length - 100) := by
    intro es
    have := foldl_add_log_entry es [] (by simp)
    simpa using this
  refine ⟨?_, base, ?_⟩
  · intro logs e h
    refine ⟨?_, add_log_entry_eq_drop logs e⟩
    rw [add_log_entry_eq_drop logs e, List.length_drop, List.length_append,
      List.length_singleton]
    omega
  · intro es h
    constructor
    · rw [base es, h]
    · rw [base es, List.length_drop, h]

/-- Witness for C5: appending 150 copies of the demo entry to an empty log
leaves exactly the most recent 100 of them. -/
theorem activity_log_bounded_witness :
    (List.replicate 150 demoLogEntry).foldl AutoMonitor.add_log_entry []
      = List.replicate 100 demoLogEntry ∧
    ((List.replicate 150 demoLogEntry).foldl AutoMonitor.add_log_entry []).length = 100 := by
  have h := activity_log_bounded.2.2 (List.replicate 150 demoLogEntry) (by simp)
  constructor
  · rw [h.1, List.drop_replicate]
  · exact h.2

/-- Frame facts about `_process_comment`: it never touches the dedup set;
it appends the comment's id to the classification trace exactly when the
message is non-blank (whether it returns normally or raises at line 375);
and when line 375 does not raise it returns normally. -/
theorem process_comment_frame (env : Env) (st : MonitorState) (c : Comment)
    (post_id : String) :
    (result_state (AutoMonitor.process_comment env st c post_id)).processed_comments
      = st.processed_comments ∧
    (result_state (AutoMonitor.process_comment env st c post_id)).classified
      = (if is_blank c.message then st.classified else st.classified ++ [c.id]) ∧
    (env.sessionRaises c.id = false →
      ∃ st', AutoMonitor.process_comment env st c post_id = .ok st') := by
  by_cases hb : is_blank c.message = true
  · simp [AutoMonitor.process_comment, hb, result_state]
  · simp only [Bool.not_eq_true] at hb
    simp only [AutoMonitor.process_comment, hb, Bool.false_eq_true, if_false,
      AutoMonitor.delete_spam_comment, AutoMonitor.add_to_pending_spam]
    by_cases hd : AutoMonitor.is_spam_decision (env.predict c.message)
        st.confidence_threshold = true
    · simp only [hd, if_true]
      by_cases hr : env.sessionRaises c.id = true
      · simp [hr, result_state]
      · simp only [Bool.not_eq_true] at hr
        simp only [hr, Bool.false_eq_true, if_false]
        by_cases ha : (env.sessionAutoDelete.getD st.auto_delete_enabled) = true
        · simp only [ha, if_true]
          by_cases hk : env.deleteOk c.id = true
          · simp [hk, result_state]
          · simp only [Bool.not_eq_true] at hk
            simp [hk, result_state]
        · simp only [Bool.not_eq_true] at ha
          simp [ha, result_state]
    · simp only [Bool.not_eq_true] at hd
      simp [hd, result_state]

/-- When the environment delivers exactly one post with one comment whose
id is not yet in the dedup set and whose message is non-blank, a run of
`_check_for_new_comments` hands that comment to the classifier. -/
theorem check_classifies (env : Env) (st0 : MonitorState) (c : Comment)
    (post_id : String)
    (henv : env.listPosts = .ok [(post_id, [c])])
    (hmsg : is_blank c.message = false)
    (hnot : st0.processed_comments.contains c.id = false) :
    c.id ∈ (result_state (AutoMonitor.check_for_new_comments env st0)).classified := by
  simp only [AutoMonitor.check_for_new_comments, henv, AutoMonitor.posts_loop,
    AutoMonitor.process_comments_loop, hnot, Bool.false_eq_true, if_false]
  cases hpc : AutoMonitor.process_comment env st0 c post_id with
  | error st' =>
    have hfr := (process_comment_frame env st0 c post_id).2.1
    rw [hpc] at hfr
    simp only [result_state, hmsg, Bool.false_eq_true, if_false] at hfr
    simp [result_state, hfr]
  | ok st' =>
    have hfr := (process_comment_frame env st0 c post_id).2.1
    rw [hpc] at hfr
    simp only [result_state, hmsg, Bool.false_eq_true, if_false] at hfr
    simp [result_state, AutoMonitor.process_comments_loop, AutoMonitor.posts_loop, hfr]

/-- A poll cycle on such an environment classifies the comment, whatever
the session-state config sync does. -/
theorem monitor_cycle_classifies (env : Env) (now : Nat) (st : MonitorState)
    (c : Comment) (post_id : String)
    (henv : env.listPosts = .ok [(post_id, [c])])
    (hmsg : is_blank c.message = false)
    (hnot : st.processed_comments.contains c.id = false) :
    c.id ∈ (AutoMonitor.monitor_cycle env now st).classified := by
  simp only [AutoMonitor.monitor_cycle]
  cases hsa : env.sessionAutoDelete with
  | none =>
    have h := check_classifies env st c post_id henv hmsg hnot
    cases hchk : AutoMonitor.check_for_new_comments env st with
    | ok st' =>
      rw [hchk] at h
      simpa [result_state] using h
    | error st' =>
      rw [hchk] at h
      simpa [result_state] using h
  | some b =>
    have h := check_classifies env { st with auto_delete_enabled := b } c post_id henv hmsg hnot
    cases hchk : AutoMonitor.check_for_new_comments env { st with auto_delete_enabled := b } with
    | ok st' =>
      rw [hchk] at h
      simpa [result_state] using h
    | error st' =>
      rw [hchk] at h
      simpa [result_state] using h

/-- C10: `reset_statistics` does not only zero the counters — it also
clears the entire dedup set of processed comment ids while leaving
`is_running` (and the pending queue and log) untouched, so a comment seen
before the reset is classified again on the very next poll cycle that
delivers it, even while the engine stays RUNNING. -/
theorem reset_statistics_clears_dedup (st : MonitorState) (now now2 : Nat)
    (env : Env) (c : Comment) (post_id : String)
    (hseen : c.id ∈ st.processed_comments)
    (henv : env.listPosts = .ok [(post_id, [c])])
    (hmsg : is_blank c.message = false) :
    (AutoMonitor.reset_statistics now st).processed_comments = [] ∧
    (AutoMonitor.reset_statistics now st).is_running = st.is_running ∧
    (AutoMonitor.reset_statistics now st).pending_spam = st.pending_spam ∧
    (AutoMonitor.reset_statistics now st).internal_logs = st.internal_logs ∧
    (AutoMonitor.reset_statistics now st).comments_processed = 0 ∧
    (AutoMonitor.reset_statistics now st).spam_detected = 0 ∧
    (AutoMonitor.reset_statistics now st).spam_removed = 0 ∧
    (AutoMonitor.reset_statistics now st).errors = 0 ∧
    c.id ∈ (AutoMonitor.monitor_cycle env now2
        (AutoMonitor.reset_statistics now st)).classified := by
  refine ⟨rfl, rfl, rfl, rfl, rfl, rfl, rfl, rfl, ?_⟩
  exact monitor_cycle_classifies env now2 (AutoMonitor.reset_statistics now st)
    c post_id henv hmsg rfl

/-- Witness for C10: the demo comment, already recorded in the dedup set,
is re-classified by the first cycle after a reset while the engine keeps
running. -/
theorem reset_statistics_clears_dedup_witness :
    ({ demoState with processed_comments := ["c1"] } |> fun st =>
      (AutoMonitor.reset_statistics 5 st).processed_comments = [] ∧
      (AutoMonitor.reset_statistics 5 st).is_running = st.is_running ∧
      (AutoMonitor.reset_statistics 5 st).pending_spam = st.pending_spam ∧
      (AutoMonitor.reset_statistics 5 st).internal_logs = st.internal_logs ∧
      (AutoMonitor.reset_statistics 5 st).comments_processed = 0 ∧
      (AutoMonitor.reset_statistics 5 st).spam_detected = 0 ∧
      (AutoMonitor.reset_statistics 5 st).spam_removed = 0 ∧
      (AutoMonitor.reset_statistics 5 st).errors = 0 ∧
      "c1" ∈ (AutoMonitor.monitor_cycle okEnv 6
          (AutoMonitor.reset_statistics 5 st)).classified) :=
  reset_statistics_clears_dedup { demoState with processed_comments := ["c1"] }
    5 6 okEnv demoComment "p1" (by decide) rfl (by decide)

/-- A `contains = false` result of the line-298 dedup check means the id is
not in the set. -/
theorem contains_false_not_mem {l : List String} {a : String}
    (h : l.contains a = false) : a ∉ l := by
  intro hmem
  simp [List.contains] at h
  exact h hmem

/-- The line-305 cap is a no-op while the set is within capacity. -/
theorem dedup_evict_le (enum : List String → List String) (l : List String)
    (h : l.length ≤ 1000) : AutoMonitor.dedup_evict enum l = l := by
  unfold AutoMonitor.dedup_evict
  rw [if_neg (by omega)]

/-- The comment loop of `_check_for_new_comments` preserves the dedup
invariant: when no comment's processing raises and the dedup set cannot
overflow, it returns normally, classifies only ids not yet in the set, and
grows the set by at most one id per comment. -/
theorem process_comments_loop_inv (env : Env) (post_id : String)
    (hraise : ∀ i, env.sessionRaises i = false) :
    ∀ (cs : List Comment) (st : MonitorState), DedupInv st →
      st.processed_comments.length + cs.length ≤ 1000 →
      ∃ st', AutoMonitor.process_comments_loop env st post_id cs = .ok st' ∧
        DedupInv st' ∧
        st'.processed_comments.length ≤ st.processed_comments.length + cs.length := by
  intro cs
  induction cs with
  | nil =>
    intro st hinv hlen
    exact ⟨st, rfl, hinv, Nat.le_refl _⟩
  | cons c rest ih =>
    intro st hinv hlen
    simp only [List.length_cons] at hlen ⊢
    by_cases hc : st.processed_comments.contains c.id = true
    · have hcm : c.id ∈ st.processed_comments := by
        have h2 := hc
        simp [List.contains] at h2
        exact h2
      obtain ⟨st', h1, h2, h3⟩ := ih st hinv (by omega)
      refine ⟨st', ?_, h2, by omega⟩
      simpa [AutoMonitor.process_comments_loop, hcm] using h1
    · simp only [Bool.not_eq_true] at hc
      obtain ⟨hproc, hclass, hok⟩ := process_comment_frame env st c post_id
      obtain ⟨st1, hst1⟩ := hok (hraise c.id)
      rw [hst1] at hproc hclass
      simp only [result_state] at hproc hclass
      have hmem : c.id ∉ st.processed_comments := contains_false_not_mem hc
      have hlenc : (st.processed_comments ++ [c.id]).length ≤ 1000 := by
        rw [List.length_append, List.length_singleton]
        omega
      have hev : AutoMonitor.dedup_evict env.enum (st1.processed_comments ++ [c.id])
          = st.processed_comments ++ [c.id] := by
        rw [hproc]
        exact dedup_evict_le env.enum _ hlenc
      obtain ⟨hn1, hn2, hsub⟩ := hinv
      have hinv2 : DedupInv
          { st1 with
            processed_comments :=
              AutoMonitor.dedup_evict env.enum (st1.processed_comments ++ [c.id]) } := by
        refine ⟨?_, ?_, ?_⟩
        · show (AutoMonitor.dedup_evict env.enum (st1.processed_comments ++ [c.id])).Nodup
          rw [hev, List.nodup_append]
          refine ⟨hn1, List.nodup_singleton _, ?_⟩
          intro x hx
          simp only [List.mem_singleton]
          rintro rfl
          exact hmem hx
        · show st1.classified.Nodup
          rw [hclass]
          split
          · exact hn2
          · rw [List.nodup_append]
            refine ⟨hn2, List.nodup_singleton _, ?_⟩
            intro x hx
            simp only [List.mem_singleton]
            rintro rfl
            exact hmem (hsub _ hx)
        · show ∀ i ∈ st1.classified,
              i ∈ AutoMonitor.dedup_evict env.enum (st1.processed_comments ++ [c.id])
          rw [hclass, hev]
          split
          · intro i hi
            exact List.mem_append_left _ (hsub i hi)
          · intro i hi
            rcases List.mem_append.1 hi with h | h
            · exact List.mem_append_left _ (hsub i h)
            · exact List.mem_append_right _ h
      have hlen2 : (AutoMonitor.dedup_evict env.enum
          (st1.processed_comments ++ [c.id])).length + rest.length ≤ 1000 := by
        rw [hev, List.length_append, List.length_singleton]
        omega
      obtain ⟨st', h1, h2, h3⟩ := ih _ hinv2 hlen2
      refine ⟨st', ?_, h2, ?_⟩
      · simp only [AutoMonitor.process_comments_loop, hc, Bool.false_eq_true,
          if_false, hst1]
        exact h1
      · have h4 : (AutoMonitor.dedup_evict env.enum
            (st1.processed_comments ++ [c.id])).length
            = st.processed_comments.length + 1 := by
          rw [hev, List.length_append, List.length_singleton]
        rw [h4] at h3
        omega

/-- The post loop of `_check_for_new_comments` preserves the dedup
invariant under the same conditions. -/
theorem posts_loop_inv (env : Env) (hraise : ∀ i, env.sessionRaises i = false) :
    ∀ (posts : List (String × List Comment)) (st : MonitorState), DedupInv st →
      st.processed_comments.length + (posts.map (fun p => p.2.length)).sum ≤ 1000 →
      ∃ st', AutoMonitor.posts_loop env st posts = .ok st' ∧ DedupInv st' ∧
        st'.processed_comments.length
          ≤ st.processed_comments.length + (posts.map (fun p => p.2.length)).sum := by
  intro posts
  induction posts with
  | nil =>
    intro st hinv hlen
    exact ⟨st, rfl, hinv, by simp⟩
  | cons p rest ih =>
    obtain ⟨pid, cs⟩ := p
    intro st hinv hlen
    simp only [List.map_cons, List.sum_cons] at hlen ⊢
    obtain ⟨st1, h1, h2, h3⟩ := process_comments_loop_inv env pid hraise cs st hinv
      (by omega)
    obtain ⟨st', h4, h5, h6⟩ := ih st1 h2 (by omega)
    refine ⟨st', ?_, h5, by omega⟩
    simp only [AutoMonitor.posts_loop, h1]
    exact h4

/-- A whole poll cycle preserves the dedup invariant when no comment's
processing raises and the cycle's comment budget keeps the dedup set
within its cap. -/
theorem monitor_cycle_inv (env : Env) (now : Nat) (st : MonitorState)
    (hraise : ∀ i, env.sessionRaises i = false)
    (hinv : DedupInv st)
    (hlen : st.processed_comments.length + cycle_comment_budget env ≤ 1000) :
    DedupInv (AutoMonitor.monitor_cycle env now st) ∧
    (AutoMonitor.monitor_cycle env now st).processed_comments.length
      ≤ st.processed_comments.length + cycle_comment_budget env := by
  have main : ∀ st0 : MonitorState,
      st0.processed_comments = st.processed_comments →
      st0.classified = st.classified →
      ∀ res : MonitorState,
        (match AutoMonitor.check_for_new_comments env st0 with
         | .ok s => { s with last_check := some now }
         | .error s => { s with errors := s.errors + 1 }) = res →
        DedupInv res ∧ res.processed_comments.length
          ≤ st.processed_comments.length + cycle_comment_budget env := by
    intro st0 hp hcl res hres
    have hinv0 : DedupInv st0 := by
      obtain ⟨a, b, c⟩ := hinv
      exact ⟨hp ▸ a, hcl ▸ b, fun i hi => hp ▸ c i (hcl ▸ hi)⟩
    cases hlp : env.listPosts with
    | error u =>
      simp only [AutoMonitor.check_for_new_comments, hlp] at hres
      have : res = { st0 with errors := st0.errors + 1 } := hres.symm
      subst this
      refine ⟨?_, ?_⟩
      · obtain ⟨a, b, c⟩ := hinv0
        exact ⟨a, b, c⟩
      · show st0.processed_comments.length
          ≤ st.processed_comments.length + cycle_comment_budget env
        rw [hp]
        omega
    | ok posts =>
      have hbud : cycle_comment_budget env = (posts.map (fun p => p.2.length)).sum := by
        simp [cycle_comment_budget, hlp]
      obtain ⟨st', h1, h2, h3⟩ := posts_loop_inv env hraise posts st0 hinv0
        (by rw [hp, ← hbud]; omega)
      simp only [AutoMonitor.check_for_new_comments, hlp, h1] at hres
      have : res = { st' with last_check := some now } := hres.symm
      subst this
      refine ⟨?_, ?_⟩
      · obtain ⟨a, b, c⟩ := h2
        exact ⟨a, b, c⟩
      · show st'.processed_comments.length
          ≤ st.processed_comments.length + cycle_comment_budget env
        rw [hp] at h3
        omega
  simp only [AutoMonitor.monitor_cycle]
  cases hsa : env.sessionAutoDelete with
  | none => exact main st rfl rfl _ rfl
  | some b => exact main { st with auto_delete_enabled := b } rfl rfl _ rfl

/-- C2 amended: a comment id is added to the dedup set immediately after
its processing completes *without an exception* (insert-after-process,
lines 302–303); when processing raises, the id is not added and the
comment may be classified again later.  Consequently, over any sequence of
poll cycles in which no comment's processing raises and the dedup set
never exceeds its 1000-entry cap, the dedup invariant is preserved: each
id is in the set at most once, no comment id is handed to the classifier
more than once, and every classified id has been recorded in the set. -/
theorem classify_once_without_exceptions (cycles : List (Env × Nat))
    (st : MonitorState)
    (hraise : ∀ en ∈ cycles, ∀ i, (Prod.fst en).sessionRaises i = false)
    (hlen : st.processed_comments.length
        + (cycles.map (fun en => cycle_comment_budget en.1)).sum ≤ 1000)
    (hinv : DedupInv st) :
    DedupInv (AutoMonitor.run_cycles cycles st) ∧
    (AutoMonitor.run_cycles cycles st).processed_comments.length
      ≤ st.processed_comments.length
        + (cycles.map (fun en => cycle_comment_budget en.1)).sum := by
  induction cycles generalizing st with
  | nil =>
    refine ⟨hinv, ?_⟩
    simp [AutoMonitor.run_cycles]
  | cons en rest ih =>
    simp only [List.map_cons, List.sum_cons] at hlen
    obtain ⟨h1, h2⟩ := monitor_cycle_inv en.1 en.2 st
      (hraise en (List.mem_cons_self en rest)) hinv (by omega)
    obtain ⟨h3, h4⟩ := ih (AutoMonitor.monitor_cycle en.1 en.2 st)
      (fun e he i => hraise e (List.mem_cons_of_mem en he) i)
      (by omega) h1
    constructor
    · simpa only [AutoMonitor.run_cycles, List.foldl_cons] using h3
    · simp only [AutoMonitor.run_cycles, List.foldl_cons] at h4 ⊢
      simp only [List.map_cons, List.sum_cons]
      omega

/-- Witness for C2 amended: two healthy cycles over the demo comment keep
the dedup invariant and grow the dedup set within budget. -/
theorem classify_once_without_exceptions_witness :
    DedupInv (AutoMonitor.run_cycles [(okEnv, 1), (okEnv, 2)] demoState) ∧
    (AutoMonitor.run_cycles [(okEnv, 1), (okEnv, 2)] demoState).processed_comments.length
      ≤ demoState.processed_comments.length
        + ([(okEnv, 1), (okEnv, 2)].map (fun en => cycle_comment_budget en.1)).sum :=
  classify_once_without_exceptions [(okEnv, 1), (okEnv, 2)] demoState
    (by intro en hen i; fin_cases hen <;> rfl)
    (by decide)
    ⟨List.nodup_nil, List.nodup_nil, fun i hi => absurd hi (List.not_mem_nil i)⟩

/-- Under the iteration order that enumerates the set newest-first, the
line-305 cap evicts precisely the 200 *newest* ids, keeping the oldest
801. -/
theorem dedup_evict_reverse (l : List String) (hlen : l.length = 1001)
    (hnd : l.Nodup) :
    AutoMonitor.dedup_evict List.reverse l = l.take 801 := by
  unfold AutoMonitor.dedup_evict
  rw [if_pos (by omega)]
  have hdlen : (l.drop 801).length = 200 := by
    rw [List.length_drop, hlen]
  have h200 : ((l.drop 801).reverse).length = 200 := by
    rw [List.length_reverse]
    exact hdlen
  have hrev : l.reverse.take 200 = (l.drop 801).reverse := by
    conv_lhs => rw [← List.take_append_drop 801 l, List.reverse_append, ← h200]
    exact List.take_left _ _
  rw [hrev]
  have hdisj : List.Disjoint (l.take 801) (l.drop 801) :=
    List.disjoint_take_drop hnd (Nat.le_refl 801)
  have hfil1 : (l.take 801).filter (fun i => !(l.drop 801).reverse.contains i)
      = l.take 801 := by
    apply List.filter_eq_self.mpr
    intro x hx
    have hnot : x ∉ l.drop 801 := fun hmem => hdisj hx hmem
    simp [List.contains, List.mem_reverse, hnot]
  have hfil2 : (l.drop 801).filter (fun i => !(l.drop 801).reverse.contains i)
      = [] := by
    apply List.filter_eq_nil_iff.mpr
    intro x hx
    have hx2 : x ∈ (l.drop 801).reverse := List.mem_reverse.mpr hx
    simp [List.contains, hx2]
  nth_rewrite 2 [← List.take_append_drop 801 l]
  rw [List.filter_append, hfil1, hfil2, List.append_nil]

/-- Under the iteration order that coincides with insertion order, the
line-305 cap evicts exactly the 200 oldest ids — the behaviour the code's
own comment (line 307) announces. -/
theorem dedup_evict_insertion_order (l : List String) (hlen : l.length = 1001)
    (hnd : l.Nodup) :
    AutoMonitor.dedup_evict (fun x => x) l = l.drop 200 := by
  unfold AutoMonitor.dedup_evict
  rw [if_pos (by omega)]
  have hdisj : List.Disjoint (l.take 200) (l.drop 200) :=
    List.disjoint_take_drop hnd (Nat.le_refl 200)
  have hfil1 : (l.take 200).filter (fun i => !(l.take 200).contains i) = [] := by
    apply List.filter_eq_nil_iff.mpr
    intro x hx
    simp [List.contains, hx]
  have hfil2 : (l.drop 200).filter (fun i => !(l.take 200).contains i)
      = l.drop 200 := by
    apply List.filter_eq_self.mpr
    intro x hx
    have hnot : x ∉ l.take 200 := fun hmem => hdisj hmem hx
    simp [List.contains, hnot]
  nth_rewrite 2 [← List.take_append_drop 200 l]
  rw [List.filter_append, hfil1, hfil2, List.nil_append]

/-- The 1001 demo ids are pairwise distinct. -/
theorem c6_ids_nodup : c6_ids.Nodup := by
  unfold c6_ids
  refine List.Nodup.map ?_ (List.nodup_range 1001)
  intro a b hab
  have h2 : List.replicate a 'a' = List.replicate b 'a' := congrArg String.data hab
  have h3 := congrArg List.length h2
  simpa using h3

/-- C6 (code bug): the dedup set is capped at 1000 and, on overflow, the
code discards `list(self.processed_comments)[:200]` — the first 200 ids in
the *iteration order of a Python `set`*, which is unspecified (string
hashes are salted per process), not insertion order.  Only when the
enumeration happens to coincide with insertion order are the 200 oldest
evicted (as the code's own comment "Remove oldest 200 entries" intends);
under the reversed enumeration the 200 *newest* are evicted instead, and
in particular the most recently inserted id is dropped, contradicting the
claim that the most recently inserted ids survive. -/
theorem dedup_eviction_order_unspecified :
    c6_ids.length = 1001 ∧
    AutoMonitor.dedup_evict (fun x => x) c6_ids = c6_ids.drop 200 ∧
    AutoMonitor.dedup_evict List.reverse c6_ids = c6_ids.take 801 ∧
    String.mk (List.replicate 1000 'a') ∈ c6_ids ∧
    String.mk (List.replicate 1000 'a') ∉ AutoMonitor.dedup_evict List.reverse c6_ids := by
  have hlen : c6_ids.length = 1001 := by simp [c6_ids]
  have hnd := c6_ids_nodup
  refine ⟨hlen, dedup_evict_insertion_order _ hlen hnd,
    dedup_evict_reverse _ hlen hnd, ?_, ?_⟩
  · simp only [c6_ids, List.mem_map, List.mem_range]
    exact ⟨1000, by omega, rfl⟩
  · rw [dedup_evict_reverse _ hlen hnd]
    intro hmem
    have htake : c6_ids.take 801
        = (List.range 801).map (fun n => String.mk (List.replicate n 'a')) := by
      rw [c6_ids, ← List.map_take, List.take_range]
      norm_num
    rw [htake] at hmem
    simp only [List.mem_map, List.mem_range] at hmem
    obtain ⟨n, hn, heq⟩ := hmem
    have hlen2 : (String.mk (List.replicate n 'a')).length
        = (String.mk (List.replicate 1000 'a')).length := by rw [heq]
    simp only [String.length, List.length_replicate] at hlen2
    omega
